import Mathlib

/-!
Verification of the VergeOS MCP server (JavaScript) against its
natural-language specification.  The definitions below are a shallow
embedding of the relevant parts of `src/index.js`, which contains two
server variants: the stdio-transport server and the HTTP/SSE-transport
server.  Both variants define a `VergeOSAPI` class; the power-state
controller (`powerOffVM`) and the reconfiguration workflow (`modifyVM`)
verified here live in the HTTP-server variant, while the credential
handling is embedded for both variants (they differ only in how the
initial token state is seeded and in one error-message string).

Modelling conventions:
  * JavaScript truthiness of strings is `s = ""` (falsy) versus nonempty;
    truthiness of optional numbers treats both `undefined` and `0` as falsy.
  * Backend interactions are made explicit: the status endpoint is a
    sequence of status views indexed by read count, and each operation
    returns the list of backend calls it performed, so that claims about
    "no call was made" or "exactly one update was sent" are statable.
  * Time is deterministic: each `setTimeout` sleep advances the clock by
    exactly its duration and backend calls are instantaneous, matching
    the simulated-time scenarios of the specification.
  * Quote punctuation around interpolated names in message strings is
    elided; the substrings that the code itself inspects (such as
    "already stopped") are preserved verbatim.
-/

/-- HTTP response as seen by node-fetch: a status code and a body text. -/
structure Response where
  status : Nat
  body : String
deriving DecidableEq, Repr

/-- node-fetch `response.ok`: status in the range [200, 300). -/
def Response.ok (r : Response) : Bool :=
  decide (200 ≤ r.status ∧ r.status < 300)

/-- Environment configuration: VERGEOS_USER, VERGEOS_PASS, VERGEOS_TOKEN.
An empty string models an unset variable (both are falsy in JS). -/
structure Env where
  user : String
  pass : String
  staticToken : String
deriving DecidableEq, Repr

/-- Mutable client state: the cached bearer token (`this.token`).
The empty string models both JS `null` and the unset token. -/
structure ApiState where
  token : String
deriving DecidableEq, Repr

/-- Stdio-server constructor: `this.token = VERGEOS_TOKEN`. -/
def stdioInit (env : Env) : ApiState :=
  { token := env.staticToken }

/-- HTTP-server constructor: `this.token = null`. -/
def httpInit : ApiState :=
  { token := "" }

/-- Error message thrown by the stdio-server `getToken` when no
credentials are configured. -/
def stdioMissingMsg : String :=
  "VergeOS credentials not configured. Set VERGEOS_USER and VERGEOS_PASS or VERGEOS_TOKEN"

/-- Error message thrown by the HTTP-server `getToken` when no
credentials are configured. -/
def httpMissingMsg : String :=
  "VergeOS credentials not configured"

/-- Result of `getToken`: either a thrown error message or the token,
together with the client state after the call and the number of login
requests issued to the token endpoint. -/
structure TokenOut where
  outcome : Except String String
  state : ApiState
  loginCalls : Nat

/-- Embedding of `VergeOSAPI.getToken` (both variants share this logic,
differing only in `missingMsg`): return the cached token if truthy;
otherwise fail when user or password is missing; otherwise POST to the
login endpoint, whose response `$key` field is `loginKey`, cache it and
return it. -/
def getToken (missingMsg : String) (env : Env) (s : ApiState) (loginKey : String) : TokenOut :=
  if s.token ≠ "" then
    { outcome := Except.ok s.token, state := s, loginCalls := 0 }
  else if env.user = "" ∨ env.pass = "" then
    { outcome := Except.error missingMsg, state := s, loginCalls := 0 }
  else
    { outcome := Except.ok loginKey, state := { token := loginKey }, loginCalls := 1 }

/-- Failure channel of `request`: either the configuration error thrown
by `getToken`, or the `API Error status: text` error thrown on a
non-success HTTP status (modelled with its two components). -/
inductive ApiError where
  | configError (msg : String)
  | httpError (status : Nat) (body : String)
deriving DecidableEq, Repr

/-- Result of `request`: the outcome (response body on success), the
client state after the call, and how many login and data requests were
issued to the backend. -/
structure RequestOut where
  outcome : Except ApiError String
  state : ApiState
  loginCalls : Nat
  dataCalls : Nat

/-- Embedding of `VergeOSAPI.request` (identical in both server
variants): ensure a token via `getToken`, issue the fetch once, and
throw on any non-ok status; there is no retry path and the cached token
is never cleared. -/
def request (missingMsg : String) (env : Env) (s : ApiState) (loginKey : String)
    (backend : String → Response) (path : String) : RequestOut :=
  let t := getToken missingMsg env s loginKey
  match t.outcome with
  | Except.error m =>
      { outcome := Except.error (ApiError.configError m), state := t.state,
        loginCalls := t.loginCalls, dataCalls := 0 }
  | Except.ok _ =>
      let r := backend path
      if r.ok then
        { outcome := Except.ok r.body, state := t.state,
          loginCalls := t.loginCalls, dataCalls := 1 }
      else
        { outcome := Except.error (ApiError.httpError r.status r.body), state := t.state,
          loginCalls := t.loginCalls, dataCalls := 1 }

/-- Backend that answers every data request with 401 Unauthorized. -/
def denyBackend : String → Response :=
  fun _ => { status := 401, body := "token expired" }

/-- View of one `getVMStatus` result: the fields of the returned object
that the power-state controller and the reconfiguration workflow read. -/
structure VMStatusView where
  name : String
  running : Bool
  power_state : String
deriving DecidableEq, Repr

/-- Backend interaction recorded by the power-state controller: a
status read (with its index in the sequence of reads), an action
dispatch (`poweroff`, `kill`, ...), or a timed sleep. -/
inductive Event where
  | read (idx : Nat)
  | act (verb : String)
  | sleep (ms : Nat)
deriving DecidableEq, Repr

/-- Result object of `powerOffVM`; absent JS fields are `none`. -/
structure PowerOffResult where
  success : Bool
  message : Option String := none
  error : Option String := none
  current_state : Option String := none
  previous_state : Option String := none
  final_state : Option String := none
  was_running : Option Bool := none
  forced : Option Bool := none
  elapsed_seconds : Option Nat := none
  note : Option String := none
  hint : Option String := none
deriving DecidableEq, Repr

/-- Math.round of a millisecond count divided by 1000 (all durations in
the controller are whole multiples of 1000 ms, where this is exact). -/
def msToSec (ms : Nat) : Nat :=
  (ms + 500) / 1000

/-- Outcome of the polling loop of `powerOffVM`: the status view that
was observed stopped (if any), the events the loop performed, the clock
value when the loop returned, and the index of the next status read. -/
structure LoopOut where
  stoppedView : Option VMStatusView
  events : List Event
  tEnd : Nat
  nextRead : Nat
deriving DecidableEq, Repr

/-- Embedding of the polling loop of `powerOffVM`:
`while (Date.now() - startTime < maxWait) { sleep 3000; read status;
if not running, return }`.  `t` is the elapsed time at the loop head,
`reads` the index of the next status read. -/
def pollLoop (seq : Nat → VMStatusView) (maxWait reads t : Nat) : LoopOut :=
  if h : t < maxWait then
    let t2 := t + 3000
    let st := seq reads
    if st.running then
      let rest := pollLoop seq maxWait (reads + 1) t2
      { rest with events := Event.sleep 3000 :: Event.read reads :: rest.events }
    else
      { stoppedView := some st, events := [Event.sleep 3000, Event.read reads],
        tEnd := t2, nextRead := reads + 1 }
  else
    { stoppedView := none, events := [], tEnd := t, nextRead := reads }
termination_by maxWait - t
decreasing_by omega

/-- Full outcome of `powerOffVM`: the returned object, the list of
backend events performed, and the elapsed time at return. -/
structure PowerOffOut where
  result : PowerOffResult
  events : List Event
  elapsedMs : Nat
deriving DecidableEq, Repr

/-- Embedding of `VergeOSAPI.powerOffVM(id, {wait_timeout,
force_after_timeout})` of the HTTP server.  `seq n` is the view
returned by the n-th `getVMStatus` call of this invocation. -/
def powerOffVM (seq : Nat → VMStatusView) (wait_timeout : Int) (force_after_timeout : Bool) :
    PowerOffOut :=
  let st := seq 0
  if st.running = false then
    { result := { success := true,
                  message := some ("VM " ++ st.name ++ " is already stopped"),
                  current_state := some st.power_state, was_running := some false },
      events := [Event.read 0], elapsedMs := 0 }
  else if wait_timeout ≤ 0 then
    { result := { success := true,
                  message := some ("Graceful shutdown command sent to VM " ++ st.name),
                  previous_state := some st.power_state,
                  note := some "Use wait_timeout parameter to wait for shutdown completion" },
      events := [Event.read 0, Event.act "poweroff"], elapsedMs := 0 }
  else
    let maxWait : Nat := (min wait_timeout 300).toNat * 1000
    let lp := pollLoop seq maxWait 1 0
    match lp.stoppedView with
    | some sv =>
        { result := { success := true,
                      message := some ("VM " ++ st.name ++ " shut down gracefully"),
                      final_state := some sv.power_state,
                      elapsed_seconds := some (msToSec lp.tEnd) },
          events := Event.read 0 :: Event.act "poweroff" :: lp.events,
          elapsedMs := lp.tEnd }
    | none =>
        if force_after_timeout then
          let fin := seq lp.nextRead
          { result := { success := true,
                        message := some ("VM " ++ st.name ++ " did not shut down within "
                          ++ toString wait_timeout ++ "s - forced power off"),
                        final_state := some fin.power_state, forced := some true,
                        elapsed_seconds := some (msToSec (lp.tEnd + 2000)) },
            events := Event.read 0 :: Event.act "poweroff" :: lp.events
              ++ [Event.act "kill", Event.sleep 2000, Event.read lp.nextRead],
            elapsedMs := lp.tEnd + 2000 }
        else
          let cur := seq lp.nextRead
          { result := { success := false,
                        error := some ("VM " ++ st.name ++ " did not shut down within "
                          ++ toString wait_timeout ++ "s"),
                        current_state := some cur.power_state,
                        elapsed_seconds := some (msToSec lp.tEnd),
                        hint := some "Use force_after_timeout=true to automatically force shutdown after timeout" },
            events := Event.read 0 :: Event.act "poweroff" :: lp.events
              ++ [Event.read lp.nextRead],
            elapsedMs := lp.tEnd }

/-- View of one `getVM` result: the fields of the VM object that the
reconfiguration workflow reads. -/
structure VMInfo where
  name : String
  cpu_cores : Nat
  ram : Nat
deriving DecidableEq, Repr

/-- JavaScript truthiness of an optional numeric argument: `undefined`
and `0` are falsy, every other count is truthy. -/
def truthyN : Option Nat → Bool
  | none => false
  | some n => n != 0

/-- JavaScript `a || b` on an optional numeric argument with a numeric
fallback: the argument value when truthy, else the fallback. -/
def orDefault (o : Option Nat) (d : Nat) : Nat :=
  match o with
  | none => d
  | some n => if n != 0 then n else d

/-- Body of the PUT update request of `modifyVM`: each field is present
exactly when the code executed the corresponding assignment. -/
structure UpdateBody where
  cpu_cores : Option Nat
  ram : Option Nat
deriving DecidableEq, Repr

/-- The `changes` object built by `modifyVM`:
`if (cpu_cores) changes.cpu_cores = cpu_cores; if (ram_mb) changes.ram = ram_mb`. -/
def mkChanges (c r : Option Nat) : UpdateBody :=
  { cpu_cores := if truthyN c then c else none,
    ram := if truthyN r then r else none }

/-- Backend call recorded by the reconfiguration workflow. -/
inductive MCall where
  | vmRead
  | statusRead
  | action (verb : String)
  | update (body : UpdateBody)
deriving DecidableEq, Repr

/-- Reinterpretation of a power-controller event as a workflow-level
backend call; sleeps touch no backend and are dropped. -/
def eventToMCall : Event → Option MCall
  | Event.read _ => some MCall.statusRead
  | Event.act v => some (MCall.action v)
  | Event.sleep _ => none

/-- Backend calls performed by a delegated `powerOffVM` invocation. -/
def toMCalls (evs : List Event) : List MCall :=
  evs.filterMap eventToMCall

/-- Update requests among a list of backend calls. -/
def updatesOf (calls : List MCall) : List UpdateBody :=
  calls.filterMap fun c =>
    match c with
    | MCall.update b => some b
    | _ => none

/-- Options object of `modifyVM` with the defaults of the source. -/
structure ModifyOptions where
  cpu_cores : Option Nat := none
  ram_mb : Option Nat := none
  shutdown_if_running : Bool := false
  wait_timeout : Int := 60
  force_after_timeout : Bool := true
deriving DecidableEq, Repr

/-- Result object of `modifyVM`; absent JS fields are `none`. -/
structure ModifyResult where
  success : Bool
  message : Option String := none
  error : Option String := none
  current_state : Option String := none
  current_cpu : Option Nat := none
  current_ram_mb : Option Nat := none
  requested_cpu : Option Nat := none
  requested_ram_mb : Option Nat := none
  hint : Option String := none
  vm_id : Option Nat := none
  previous_cpu : Option Nat := none
  previous_ram_mb : Option Nat := none
  new_cpu : Option Nat := none
  new_ram_mb : Option Nat := none
  was_running : Option Bool := none
  note : Option String := none
  shutdown_result : Option PowerOffResult := none
deriving DecidableEq, Repr

/-- The optional-chained substring test
`shutdownResult.message?.includes("already stopped")`:
false when the message is absent. -/
def msgAlreadyStopped : Option String → Bool
  | none => false
  | some s => decide (List.IsInfix ("already stopped").toList s.toList)

/-- Full outcome of `modifyVM`: the returned object and the list of
backend calls performed. -/
structure ModifyOut where
  result : ModifyResult
  calls : List MCall

/-- The success object returned by `modifyVM` after the update request. -/
def modifySuccess (vm : VMInfo) (o : ModifyOptions) (vmId : Nat) (wasRunning : Bool) :
    ModifyResult :=
  { success := true,
    message := some ("VM " ++ vm.name ++ " modified successfully"),
    vm_id := some vmId,
    previous_cpu := some vm.cpu_cores,
    previous_ram_mb := some vm.ram,
    new_cpu := some (orDefault o.cpu_cores vm.cpu_cores),
    new_ram_mb := some (orDefault o.ram_mb vm.ram),
    was_running := some wasRunning,
    note := some (if wasRunning then
        "VM was shut down to apply changes. Use power_on_vm to restart it."
      else
        "VM is stopped. Use power_on_vm to start it with new settings.") }

/-- Embedding of `VergeOSAPI.modifyVM(vmId, options)` of the HTTP
server.  `vm` is the view returned by the initial `getVM`; `seq n` is
the view of the n-th `getVMStatus` call of this invocation (index 0 is
the workflow level read, the delegated `powerOffVM` reads follow). -/
def modifyVM (vm : VMInfo) (seq : Nat → VMStatusView) (vmId : Nat) (o : ModifyOptions) :
    ModifyOut :=
  if !truthyN o.cpu_cores && !truthyN o.ram_mb then
    { result := { success := false,
                  error := some "Must specify cpu_cores and/or ram_mb to modify" },
      calls := [] }
  else
    let status := seq 0
    let changes := mkChanges o.cpu_cores o.ram_mb
    let base := [MCall.vmRead, MCall.statusRead]
    if status.running then
      if !o.shutdown_if_running then
        { result := { success := false,
                      error := some ("VM " ++ vm.name ++ " is currently running. CPU/RAM changes require the VM to be powered off."),
                      current_state := some status.power_state,
                      current_cpu := some vm.cpu_cores,
                      current_ram_mb := some vm.ram,
                      requested_cpu := some (orDefault o.cpu_cores vm.cpu_cores),
                      requested_ram_mb := some (orDefault o.ram_mb vm.ram),
                      hint := some "Set shutdown_if_running=true to automatically shut down the VM, apply changes, and optionally restart it" },
          calls := base }
      else
        let p := powerOffVM (fun n => seq (n + 1)) o.wait_timeout o.force_after_timeout
        let callsSoFar := base ++ toMCalls p.events
        if !p.result.success && !msgAlreadyStopped p.result.message then
          { result := { success := false,
                        error := some ("Failed to shut down VM " ++ vm.name ++ ": "
                          ++ (p.result.error).getD "undefined"),
                        shutdown_result := some p.result },
            calls := callsSoFar }
        else
          { result := modifySuccess vm o vmId status.running,
            calls := callsSoFar ++ [MCall.update changes] }
    else
      { result := modifySuccess vm o vmId status.running,
        calls := base ++ [MCall.update changes] }

/-- The polling loop never reports a stopped view when every status
read of the backend reports the VM as running. -/
theorem pollLoop_stoppedView_none (seq : Nat → VMStatusView)
    (h : ∀ n, (seq n).running = true) (maxWait reads t : Nat) :
    (pollLoop seq maxWait reads t).stoppedView = none := by
  rw [pollLoop]
  split
  · dsimp only
    rw [h reads]
    simp only [if_true]
    exact pollLoop_stoppedView_none seq h maxWait (reads + 1) (t + 3000)
  · rfl
termination_by maxWait - t
decreasing_by omega

/-- The polling loop performs only sleeps and status reads: it never
dispatches an action to the backend. -/
theorem pollLoop_no_act (seq : Nat → VMStatusView) (maxWait reads t : Nat) (v : String) :
    Event.act v ∉ (pollLoop seq maxWait reads t).events := by
  rw [pollLoop]
  split
  · dsimp only
    split
    · intro hmem
      simp only [List.mem_cons] at hmem
      rcases hmem with h1 | h1 | h1
      · exact Event.noConfusion h1
      · exact Event.noConfusion h1
      · exact pollLoop_no_act seq maxWait (reads + 1) (t + 3000) v h1
    · intro hmem
      simp only [List.mem_cons, List.not_mem_nil, or_false] at hmem
      rcases hmem with h1 | h1
      · exact Event.noConfusion h1
      · exact Event.noConfusion h1
  · intro hmem
    exact List.not_mem_nil _ hmem
termination_by maxWait - t
decreasing_by omega

/-- Filtering updates distributes over list concatenation. -/
theorem updatesOf_append (a b : List MCall) :
    updatesOf (a ++ b) = updatesOf a ++ updatesOf b := by
  simp [updatesOf, List.filterMap_append]

/-- A delegated `powerOffVM` invocation contributes no update request
to the workflow trace. -/
theorem updatesOf_toMCalls (evs : List Event) : updatesOf (toMCalls evs) = [] := by
  induction evs with
  | nil => rfl
  | cons e tl ih =>
    cases e <;> simp only [toMCalls, eventToMCall, updatesOf, List.filterMap_cons] at ih ⊢ <;>
      simpa using ih

/-- The update requests issued by `modifyVM`: exactly the single
`changes` body when the call succeeds, none otherwise. -/
theorem modifyVM_updatesOf (vm : VMInfo) (seq : Nat → VMStatusView) (vmId : Nat)
    (o : ModifyOptions) :
    updatesOf (modifyVM vm seq vmId o).calls =
      (if (modifyVM vm seq vmId o).result.success then [mkChanges o.cpu_cores o.ram_mb] else []) := by
  unfold modifyVM
  dsimp only
  split
  · rfl
  · split
    · split
      · rfl
      · split
        · rw [updatesOf_append, updatesOf_toMCalls]
          rfl
        · rw [updatesOf_append, updatesOf_append, updatesOf_toMCalls]
          simp [modifySuccess, updatesOf]
    · rw [updatesOf_append]
      simp [modifySuccess, updatesOf]

/-- The `changes` body never carries an explicit zero CPU count. -/
theorem mkChanges_cpu_ne_zero (c r : Option Nat) : (mkChanges c r).cpu_cores ≠ some 0 := by
  cases c with
  | none => simp [mkChanges, truthyN]
  | some n =>
    by_cases hn : n = 0
    · subst hn; simp [mkChanges, truthyN]
    · simp [mkChanges, truthyN, hn]

/-- The `changes` body never carries an explicit zero RAM amount. -/
theorem mkChanges_ram_ne_zero (c r : Option Nat) : (mkChanges c r).ram ≠ some 0 := by
  cases r with
  | none => simp [mkChanges, truthyN]
  | some n =>
    by_cases hn : n = 0
    · subst hn; simp [mkChanges, truthyN]
    · simp [mkChanges, truthyN, hn]

/-- Status backend of the boundary scenario: running on the first two
reads, stopped from the third read on. -/
def demoSeq : Nat → VMStatusView := fun n =>
  if n < 2 then { name := "web", running := true, power_state := "running" }
  else { name := "web", running := false, power_state := "stopped" }

/-- Status backend whose VM never stops. -/
def runSeq : Nat → VMStatusView := fun _ =>
  { name := "db", running := true, power_state := "running" }

/-- Status backend whose VM is stopped throughout. -/
def stopSeq : Nat → VMStatusView := fun _ =>
  { name := "web", running := false, power_state := "stopped" }

/-- VM detail view used by the reconfiguration scenarios. -/
def demoVM : VMInfo :=
  { name := "vm3", cpu_cores := 4, ram := 4096 }

/-- Claim C1: a powerOff call with wait timeout 6 and no force flag,
against a backend reporting running on the first two status reads and
stopped on the third (the loop poll landing exactly at elapsed time
6 s, the timeout boundary), returns a graceful success with the stopped
final state and elapsed seconds 6, not a timeout failure and not a
forced result: the loop observes the status before re-checking expiry. -/
theorem claim_C1_timeout_boundary_graceful_success (seq : Nat → VMStatusView)
    (h0 : (seq 0).running = true) (h1 : (seq 1).running = true)
    (h2 : (seq 2).running = false) :
    (powerOffVM seq 6 false).result.success = true ∧
    (powerOffVM seq 6 false).result.final_state = some ((seq 2).power_state) ∧
    (powerOffVM seq 6 false).result.elapsed_seconds = some 6 ∧
    (powerOffVM seq 6 false).result.forced = none := by
  have hl : pollLoop seq 6000 1 0 =
      { stoppedView := some (seq 2),
        events := [Event.sleep 3000, Event.read 1, Event.sleep 3000, Event.read 2],
        tEnd := 6000, nextRead := 3 } := by
    rw [pollLoop]
    rw [dif_pos (by norm_num : (0:Nat) < 6000)]
    dsimp only
    rw [h1]
    simp only [if_true]
    rw [pollLoop]
    rw [dif_pos (by norm_num : (3000:Nat) < 6000)]
    dsimp only
    rw [h2]
    simp only [Bool.false_eq_true, if_false]
  have hm : (min (6:Int) 300).toNat * 1000 = 6000 := by decide
  unfold powerOffVM
  dsimp only
  rw [if_neg (by simp [h0]), if_neg (by norm_num : ¬((6:Int) ≤ 0)), hm, hl]
  dsimp only
  exact ⟨rfl, rfl, rfl, rfl⟩

/-- Claim C1 witness: the boundary scenario on the concrete backend
`demoSeq` (running, running, stopped at 6 s). -/
theorem claim_C1_witness :
    (powerOffVM demoSeq 6 false).result.success = true ∧
    (powerOffVM demoSeq 6 false).result.final_state = some "stopped" ∧
    (powerOffVM demoSeq 6 false).result.elapsed_seconds = some 6 ∧
    (powerOffVM demoSeq 6 false).result.forced = none :=
  claim_C1_timeout_boundary_graceful_success demoSeq rfl rfl rfl

/-- Claim C2 counterexample: with a cached token and a backend that
answers 401, `request` does NOT invalidate the credential, does NOT
obtain a fresh one and does NOT retry: it issues exactly one data call,
zero login calls, keeps the cached token and propagates the 401 as an
error, contradicting the claimed invalidate-refresh-retry behavior. -/
theorem claim_C2_counterexample :
    (request httpMissingMsg { user := "u", pass := "p", staticToken := "" }
      { token := "cached" } "fresh" denyBackend "/api/v4/vms").outcome
        = Except.error (ApiError.httpError 401 "token expired") ∧
    (request httpMissingMsg { user := "u", pass := "p", staticToken := "" }
      { token := "cached" } "fresh" denyBackend "/api/v4/vms").dataCalls = 1 ∧
    (request httpMissingMsg { user := "u", pass := "p", staticToken := "" }
      { token := "cached" } "fresh" denyBackend "/api/v4/vms").loginCalls = 0 ∧
    (request httpMissingMsg { user := "u", pass := "p", staticToken := "" }
      { token := "cached" } "fresh" denyBackend "/api/v4/vms").state.token = "cached" :=
  ⟨rfl, rfl, rfl, rfl⟩

/-- Claim C2 amended: every non-success HTTP status, 401 included, is
propagated as a failure carrying the status code and the response body,
with exactly one data request (no retry), no login request, and the
cached bearer credential left intact (never invalidated). -/
theorem claim_C2_no_retry_on_failure (env : Env) (s : ApiState) (loginKey : String)
    (backend : String → Response) (path msg : String)
    (htok : s.token ≠ "") (hfail : (backend path).ok = false) :
    (request msg env s loginKey backend path).outcome
      = Except.error (ApiError.httpError (backend path).status (backend path).body) ∧
    (request msg env s loginKey backend path).dataCalls = 1 ∧
    (request msg env s loginKey backend path).loginCalls = 0 ∧
    (request msg env s loginKey backend path).state.token = s.token := by
  unfold request getToken
  dsimp only
  rw [if_pos htok]
  dsimp only
  rw [if_neg (by simp [hfail])]
  exact ⟨rfl, rfl, rfl, rfl⟩

/-- Claim C2 amended witness: concrete instance of the no-retry theorem
on the 401 backend. -/
theorem claim_C2_witness :
    ({ token := "tok" } : ApiState).token ≠ "" ∧
    (denyBackend "/api/v4/vms").ok = false ∧
    (request httpMissingMsg { user := "", pass := "", staticToken := "" }
      { token := "tok" } "k" denyBackend "/api/v4/vms").dataCalls = 1 :=
  ⟨by decide, by decide,
    (claim_C2_no_retry_on_failure { user := "", pass := "", staticToken := "" }
      { token := "tok" } "k" denyBackend "/api/v4/vms" httpMissingMsg
      (by decide) (by decide)).2.1⟩

/-- Claim C3 counterexample: with both a username/password pair and a
static token configured, the stdio-server `getToken` returns the static
token with zero login requests: the credential pair is NOT exchanged at
the login endpoint, contradicting the claimed pair-over-token priority. -/
theorem claim_C3_counterexample :
    (getToken stdioMissingMsg { user := "admin", pass := "pw", staticToken := "statictok" }
      (stdioInit { user := "admin", pass := "pw", staticToken := "statictok" })
      "logintok").outcome = Except.ok "statictok" ∧
    (getToken stdioMissingMsg { user := "admin", pass := "pw", staticToken := "statictok" }
      (stdioInit { user := "admin", pass := "pw", staticToken := "statictok" })
      "logintok").loginCalls = 0 :=
  ⟨rfl, rfl⟩

/-- Claim C3 amended: the static token takes priority: whenever
VERGEOS_TOKEN is nonempty, the stdio-server client uses it directly,
issues no login request, and leaves its state unchanged; the
username/password exchange happens only when no static token is set. -/
theorem claim_C3_static_token_priority (env : Env) (loginKey : String)
    (h : env.staticToken ≠ "") :
    (getToken stdioMissingMsg env (stdioInit env) loginKey).outcome
      = Except.ok env.staticToken ∧
    (getToken stdioMissingMsg env (stdioInit env) loginKey).loginCalls = 0 ∧
    (getToken stdioMissingMsg env (stdioInit env) loginKey).state = stdioInit env := by
  unfold getToken stdioInit
  dsimp only
  rw [if_pos h]
  exact ⟨rfl, rfl, rfl⟩

/-- Claim C3 amended witness: concrete instance with both credential
kinds configured. -/
theorem claim_C3_witness :
    ({ user := "admin", pass := "pw", staticToken := "statictok" } : Env).staticToken ≠ "" ∧
    (getToken stdioMissingMsg { user := "admin", pass := "pw", staticToken := "statictok" }
      (stdioInit { user := "admin", pass := "pw", staticToken := "statictok" })
      "logintok").loginCalls = 0 :=
  ⟨by decide,
    (claim_C3_static_token_priority
      { user := "admin", pass := "pw", staticToken := "statictok" } "logintok"
      (by decide)).2.1⟩

/-- Claim C4: when the poll window elapses with the VM still running
and force_after_timeout is true, exactly one forced kill action is
dispatched (none before it, one in the closing sequence), followed by a
fixed 2-second settle sleep and one final status re-read, and the
result is a success with forced true and the final state taken from
that re-read, even though that re-read still shows the VM running. -/
theorem claim_C4_forced_kill_once (seq : Nat → VMStatusView) (w : Int)
    (hAll : ∀ n, (seq n).running = true) (hw : 0 < w) :
    (powerOffVM seq w true).result.success = true ∧
    (powerOffVM seq w true).result.forced = some true ∧
    (∃ pre n, (powerOffVM seq w true).events
        = pre ++ [Event.act "kill", Event.sleep 2000, Event.read n] ∧
      Event.act "kill" ∉ pre ∧
      (powerOffVM seq w true).result.final_state = some ((seq n).power_state)) := by
  have h1 : ¬((seq 0).running = false) := by simp [hAll 0]
  have hw0 : ¬(w ≤ 0) := by omega
  have hsv := pollLoop_stoppedView_none seq hAll ((min w 300).toNat * 1000) 1 0
  have hna := pollLoop_no_act seq ((min w 300).toNat * 1000) 1 0 "kill"
  unfold powerOffVM
  dsimp only
  rw [if_neg h1, if_neg hw0, hsv]
  dsimp only
  refine ⟨rfl, rfl, ?_⟩
  refine ⟨Event.read 0 :: Event.act "poweroff"
      :: (pollLoop seq ((min w 300).toNat * 1000) 1 0).events,
    (pollLoop seq ((min w 300).toNat * 1000) 1 0).nextRead, by simp, ?_, rfl⟩
  intro hmem
  simp only [List.mem_cons] at hmem
  rcases hmem with hx | hx | hx
  · exact Event.noConfusion hx
  · exact absurd hx (by simp)
  · exact hna hx

/-- Claim C4 witness: the never-stopping backend `runSeq` with a
6-second window and the force flag set. -/
theorem claim_C4_witness :
    (∀ n, (runSeq n).running = true) ∧
    (powerOffVM runSeq 6 true).result.success = true ∧
    (powerOffVM runSeq 6 true).result.forced = some true :=
  ⟨fun _ => rfl,
    (claim_C4_forced_kill_once runSeq 6 (fun _ => rfl) (by norm_num)).1,
    (claim_C4_forced_kill_once runSeq 6 (fun _ => rfl) (by norm_num)).2.1⟩

/-- Claim C5: powerOff on an already stopped VM returns success
immediately with the current state and was_running false, performs only
the single initial status read (so it issues no shutdown action and
never enters the polling loop), for every wait timeout and force flag. -/
theorem claim_C5_already_stopped_idempotent (seq : Nat → VMStatusView) (w : Int) (f : Bool)
    (h : (seq 0).running = false) :
    (powerOffVM seq w f).result.success = true ∧
    (powerOffVM seq w f).result.current_state = some ((seq 0).power_state) ∧
    (powerOffVM seq w f).result.was_running = some false ∧
    (powerOffVM seq w f).events = [Event.read 0] := by
  unfold powerOffVM
  dsimp only
  rw [if_pos h]
  exact ⟨rfl, rfl, rfl, rfl⟩

/-- Claim C5 witness: the always-stopped backend `stopSeq`. -/
theorem claim_C5_witness :
    (stopSeq 0).running = false ∧
    (powerOffVM stopSeq 60 true).result.success = true ∧
    (powerOffVM stopSeq 60 true).result.was_running = some false ∧
    (powerOffVM stopSeq 60 true).events = [Event.read 0] :=
  ⟨rfl,
    (claim_C5_already_stopped_idempotent stopSeq 60 true rfl).1,
    (claim_C5_already_stopped_idempotent stopSeq 60 true rfl).2.2.1,
    (claim_C5_already_stopped_idempotent stopSeq 60 true rfl).2.2.2⟩

/-- Claim C6: the effective wait of powerOff lies in [0, 300] seconds:
for any wait timeout above 300, the behavior (backend events, elapsed
time, success flag and reported elapsed seconds) coincides with a call
using exactly 300; and for any wait timeout at most 0, no wait happens:
success is returned at time 0 immediately after dispatching the
graceful shutdown action. -/
theorem claim_C6_wait_clamped (seq : Nat → VMStatusView) (w : Int) (f : Bool)
    (hrun : (seq 0).running = true) :
    (300 < w →
      (powerOffVM seq w f).events = (powerOffVM seq 300 f).events ∧
      (powerOffVM seq w f).elapsedMs = (powerOffVM seq 300 f).elapsedMs ∧
      (powerOffVM seq w f).result.success = (powerOffVM seq 300 f).result.success ∧
      (powerOffVM seq w f).result.elapsed_seconds
        = (powerOffVM seq 300 f).result.elapsed_seconds) ∧
    (w ≤ 0 →
      (powerOffVM seq w f).events = [Event.read 0, Event.act "poweroff"] ∧
      (powerOffVM seq w f).result.success = true ∧
      (powerOffVM seq w f).elapsedMs = 0) := by
  have h1 : ¬((seq 0).running = false) := by simp [hrun]
  constructor
  · intro hlt
    have hw0 : ¬(w ≤ 0) := by omega
    have h300 : ¬((300:Int) ≤ 0) := by norm_num
    have hmin : min w 300 = (300:Int) := min_eq_right hlt.le
    have hmin2 : min (300:Int) 300 = 300 := min_self 300
    unfold powerOffVM
    dsimp only
    rw [if_neg h1, if_neg h1, if_neg hw0, if_neg h300, hmin, hmin2]
    cases hsv : (pollLoop seq ((300:Int).toNat * 1000) 1 0).stoppedView <;> cases f <;>
      exact ⟨rfl, rfl, rfl, rfl⟩
  · intro hle
    unfold powerOffVM
    dsimp only
    rw [if_neg h1, if_pos hle]
    exact ⟨rfl, rfl, rfl⟩

/-- Claim C6 witness: wait timeout 301 behaves as 300 on the
never-stopping backend, and wait timeout -1 performs no wait. -/
theorem claim_C6_witness :
    (powerOffVM runSeq 301 true).events = (powerOffVM runSeq 300 true).events ∧
    (powerOffVM runSeq (-1) false).events = [Event.read 0, Event.act "poweroff"] :=
  ⟨((claim_C6_wait_clamped runSeq 301 true rfl).1 (by norm_num)).1,
    ((claim_C6_wait_clamped runSeq (-1) false rfl).2 (by norm_num)).1⟩

/-- Claim C7: a modify call with both cpu_cores and ram_mb absent fails
fast with the validation error and performs zero backend calls: no read
and no write appears in the trace. -/
theorem claim_C7_noop_validation (vm : VMInfo) (seq : Nat → VMStatusView) (vmId : Nat)
    (o : ModifyOptions) (h1 : o.cpu_cores = none) (h2 : o.ram_mb = none) :
    (modifyVM vm seq vmId o).result.success = false ∧
    (modifyVM vm seq vmId o).result.error
      = some "Must specify cpu_cores and/or ram_mb to modify" ∧
    (modifyVM vm seq vmId o).calls = [] := by
  unfold modifyVM
  dsimp only
  rw [h1, h2]
  rw [if_pos (show (!truthyN none && !truthyN none) = true from rfl)]
  exact ⟨rfl, rfl, rfl⟩

/-- Claim C7 witness: the all-defaults options object (both fields
absent). -/
theorem claim_C7_witness :
    ({} : ModifyOptions).cpu_cores = none ∧
    (modifyVM demoVM stopSeq 3 {}).result.success = false ∧
    (modifyVM demoVM stopSeq 3 {}).calls = [] :=
  ⟨rfl,
    (claim_C7_noop_validation demoVM stopSeq 3 {} rfl rfl).1,
    (claim_C7_noop_validation demoVM stopSeq 3 {} rfl rfl).2.2⟩

/-- Claim C8: a modify call on a running VM with shutdown_if_running
false (and at least one requested field, so validation passes) returns
a structured failure carrying the current CPU and RAM, the requested
values, and the hint naming the flag, while performing only the two
initial reads: no update request is sent to the backend. -/
theorem claim_C8_running_without_flag (vm : VMInfo) (seq : Nat → VMStatusView) (vmId : Nat)
    (o : ModifyOptions) (hrun : (seq 0).running = true)
    (hflag : o.shutdown_if_running = false)
    (hreq : (truthyN o.cpu_cores || truthyN o.ram_mb) = true) :
    (modifyVM vm seq vmId o).result.success = false ∧
    (modifyVM vm seq vmId o).result.current_cpu = some vm.cpu_cores ∧
    (modifyVM vm seq vmId o).result.current_ram_mb = some vm.ram ∧
    (modifyVM vm seq vmId o).result.requested_cpu
      = some (orDefault o.cpu_cores vm.cpu_cores) ∧
    (modifyVM vm seq vmId o).result.requested_ram_mb
      = some (orDefault o.ram_mb vm.ram) ∧
    (modifyVM vm seq vmId o).result.hint
      = some "Set shutdown_if_running=true to automatically shut down the VM, apply changes, and optionally restart it" ∧
    (modifyVM vm seq vmId o).calls = [MCall.vmRead, MCall.statusRead] ∧
    updatesOf (modifyVM vm seq vmId o).calls = [] := by
  have hcond : (!truthyN o.cpu_cores && !truthyN o.ram_mb) = false := by
    rw [← Bool.not_or, hreq]
    rfl
  unfold modifyVM
  dsimp only
  rw [hcond, hrun, hflag]
  exact ⟨rfl, rfl, rfl, rfl, rfl, rfl, rfl, rfl⟩

/-- Claim C8 witness: the spec scenario, modify(vmId 3, ram_mb 8192,
shutdown_if_running false) on a running VM with 4 cores and 4096 MB. -/
theorem claim_C8_witness :
    (runSeq 0).running = true ∧
    (modifyVM demoVM runSeq 3 { ram_mb := some 8192 }).result.success = false ∧
    (modifyVM demoVM runSeq 3 { ram_mb := some 8192 }).result.current_cpu = some 4 ∧
    (modifyVM demoVM runSeq 3 { ram_mb := some 8192 }).result.current_ram_mb = some 4096 ∧
    (modifyVM demoVM runSeq 3 { ram_mb := some 8192 }).result.requested_ram_mb = some 8192 ∧
    updatesOf (modifyVM demoVM runSeq 3 { ram_mb := some 8192 }).calls = [] :=
  ⟨rfl,
    (claim_C8_running_without_flag demoVM runSeq 3 { ram_mb := some 8192 }
      rfl rfl (by decide)).1,
    (claim_C8_running_without_flag demoVM runSeq 3 { ram_mb := some 8192 }
      rfl rfl (by decide)).2.1,
    (claim_C8_running_without_flag demoVM runSeq 3 { ram_mb := some 8192 }
      rfl rfl (by decide)).2.2.1,
    (claim_C8_running_without_flag demoVM runSeq 3 { ram_mb := some 8192 }
      rfl rfl (by decide)).2.2.2.2.1,
    (claim_C8_running_without_flag demoVM runSeq 3 { ram_mb := some 8192 }
      rfl rfl (by decide)).2.2.2.2.2.2.2⟩

/-- Claim C9: every modify call that reaches the update step (returns
success) sends exactly one update request, whose body is the `changes`
object carrying only truthy requested fields: when cpu_cores was not
given the body has no CPU field, and when ram_mb was not given the body
has no RAM field, so unrequested fields are never clobbered. -/
theorem claim_C9_update_only_requested_fields (vm : VMInfo) (seq : Nat → VMStatusView)
    (vmId : Nat) (o : ModifyOptions)
    (hsucc : (modifyVM vm seq vmId o).result.success = true) :
    updatesOf (modifyVM vm seq vmId o).calls = [mkChanges o.cpu_cores o.ram_mb] ∧
    (o.cpu_cores = none → (mkChanges o.cpu_cores o.ram_mb).cpu_cores = none) ∧
    (o.ram_mb = none → (mkChanges o.cpu_cores o.ram_mb).ram = none) := by
  refine ⟨?_, ?_, ?_⟩
  · rw [modifyVM_updatesOf, if_pos hsucc]
  · intro h
    simp [mkChanges, h, truthyN]
  · intro h
    simp [mkChanges, h, truthyN]

/-- Claim C9 witness: a CPU-only modify on a stopped VM sends exactly
one update whose body has no RAM field. -/
theorem claim_C9_witness :
    (modifyVM demoVM stopSeq 3 { cpu_cores := some 8 }).result.success = true ∧
    updatesOf (modifyVM demoVM stopSeq 3 { cpu_cores := some 8 }).calls
      = [{ cpu_cores := some 8, ram := none }] :=
  ⟨rfl,
    (claim_C9_update_only_requested_fields demoVM stopSeq 3
      { cpu_cores := some 8 } rfl).1⟩

/-- Claim C10: modify tests field presence by truthiness, so zero acts
as absent: a call with cpu_cores = 0 and ram_mb = 0 trips the no-op
validation (zero backend calls), no update body ever carries an
explicit zero for CPU or RAM, and a zero field alongside a truthy other
is omitted from the update body, so this interface can never set CPU
cores or RAM to 0. -/
theorem claim_C10_zero_treated_as_absent (vm : VMInfo) (seq : Nat → VMStatusView)
    (vmId : Nat) (o : ModifyOptions) :
    ((o.cpu_cores = some 0 ∧ o.ram_mb = some 0) →
      (modifyVM vm seq vmId o).result.success = false ∧
      (modifyVM vm seq vmId o).result.error
        = some "Must specify cpu_cores and/or ram_mb to modify" ∧
      (modifyVM vm seq vmId o).calls = []) ∧
    (∀ b ∈ updatesOf (modifyVM vm seq vmId o).calls,
      b.cpu_cores ≠ some 0 ∧ b.ram ≠ some 0) ∧
    (o.cpu_cores = some 0 →
      ∀ b ∈ updatesOf (modifyVM vm seq vmId o).calls, b.cpu_cores = none) ∧
    (o.ram_mb = some 0 →
      ∀ b ∈ updatesOf (modifyVM vm seq vmId o).calls, b.ram = none) := by
  have hu := modifyVM_updatesOf vm seq vmId o
  refine ⟨?_, ?_, ?_, ?_⟩
  · rintro ⟨h1, h2⟩
    unfold modifyVM
    dsimp only
    rw [h1, h2]
    rw [if_pos (show (!truthyN (some 0) && !truthyN (some 0)) = true from rfl)]
    exact ⟨rfl, rfl, rfl⟩
  · intro b hb
    rw [hu] at hb
    by_cases hs : (modifyVM vm seq vmId o).result.success = true
    · rw [if_pos hs] at hb
      simp only [List.mem_singleton] at hb
      subst hb
      exact ⟨mkChanges_cpu_ne_zero o.cpu_cores o.ram_mb,
        mkChanges_ram_ne_zero o.cpu_cores o.ram_mb⟩
    · rw [if_neg hs] at hb
      exact absurd hb (List.not_mem_nil b)
  · intro h b hb
    rw [hu] at hb
    by_cases hs : (modifyVM vm seq vmId o).result.success = true
    · rw [if_pos hs] at hb
      simp only [List.mem_singleton] at hb
      subst hb
      simp [mkChanges, h, truthyN]
    · rw [if_neg hs] at hb
      exact absurd hb (List.not_mem_nil b)
  · intro h b hb
    rw [hu] at hb
    by_cases hs : (modifyVM vm seq vmId o).result.success = true
    · rw [if_pos hs] at hb
      simp only [List.mem_singleton] at hb
      subst hb
      simp [mkChanges, h, truthyN]
    · rw [if_neg hs] at hb
      exact absurd hb (List.not_mem_nil b)

/-- Claim C10 witness: the double-zero request is rejected with zero
backend calls. -/
theorem claim_C10_witness :
    (modifyVM demoVM stopSeq 3 { cpu_cores := some 0, ram_mb := some 0 }).result.success
      = false ∧
    (modifyVM demoVM stopSeq 3 { cpu_cores := some 0, ram_mb := some 0 }).calls = [] :=
  ⟨((claim_C10_zero_treated_as_absent demoVM stopSeq 3
      { cpu_cores := some 0, ram_mb := some 0 }).1 ⟨rfl, rfl⟩).1,
    ((claim_C10_zero_treated_as_absent demoVM stopSeq 3
      { cpu_cores := some 0, ram_mb := some 0 }).1 ⟨rfl, rfl⟩).2.2⟩
